import Mathlib

/-!
Shallow embedding of `src/bot.py` (repository `danish296/Cores_AI`).

The program is a straight-line request pipeline stitched over external
services.  Each external call (embedder, vector-store RPC, language-model
chat, web-search provider, vector-store insert) is modelled as a function
of an environment `Env` returning `Except String _`: `.error e` models the
Python call raising an exception whose rendered detail is `e`, `.ok v`
models a normal return of `v`.  Embedding vectors are opaque `List Int`
tokens (no claim computes with their numeric content).  `get_bot_response`
returns the reply text together with the list of rows successfully
inserted into the `memories` table during the turn, in insertion order.

String-level helpers (`pyLower`, `pyTitle`, the regex-capture routine)
model the Python string/`re` operations used by the code, restricted to
the ASCII behaviour the source exercises.
-/

namespace CoresAI

/-- A record returned by the `match_memories` RPC; the code reads only its
`content` field (line 100 of `bot.py`). -/
structure MemoryRecord where
  content : String
deriving Repr, DecidableEq

/-- A row inserted into the `memories` table (lines 161-163, 172-176). -/
structure MemoryRow where
  user_id : Int
  content : String
  embedding : List Int
deriving Repr, DecidableEq

/-- The `answer_box` part of a SerpApi result dictionary: its `snippet`
key may be present or absent. -/
structure AnswerBox where
  snippet : Option String
deriving Repr, DecidableEq

/-- One entry of `organic_results`: its `snippet` key may be present or
absent. -/
structure OrganicResult where
  snippet : Option String
deriving Repr, DecidableEq

/-- The parts of the SerpApi result dictionary that
`perform_web_search` reads (lines 72-74). -/
structure SearchResults where
  answer_box : Option AnswerBox
  organic_results : List OrganicResult
deriving Repr, DecidableEq

/-- The planner decision as the code consumes it after `json.loads`:
`tool` is `decision_json.get("tool")` when that value is a string (line
119), `query` is `decision_json.get("query")` when that value is a string
(line 124); `none` covers a missing key.  Only the comparison with the
string `"web_search"` and the pass-through of `query` matter downstream. -/
structure Decision where
  tool : Option String
  query : Option String
deriving Repr, DecidableEq

/-- The external world of one turn.  Each field models one kind of
external call the pipeline makes; `.error` models the call raising. -/
structure Env where
  /-- `embedding_model.encode(text).tolist()` (lines 86, 160, 170). -/
  encode : String → Except String (List Int)
  /-- `supabase.rpc('match_memories', params).execute()` (line 93), taking
  the query embedding and `p_user_id`; the fixed `match_threshold = 0.3`
  and `match_count = 8` are part of the external call (lines 87-92). -/
  match_memories : List Int → Int → Except String (List MemoryRecord)
  /-- The planner chat call (lines 112-116): prompt content to the raw
  `choices[0].message.content` string. -/
  plannerChat : String → Except String String
  /-- `json.loads` on the planner content followed by the two `.get`
  reads (lines 118-119, 124): an unparseable content is `.error`. -/
  parseJson : String → Except String Decision
  /-- `GoogleSearch(params).get_dict()` (lines 69-71) for the given
  `q` value (`none` models a missing planner query passed through). -/
  webSearch : Option String → Except String SearchResults
  /-- The responder chat call (lines 148-154): system content and user
  content to the generated `choices[0].message.content`. -/
  responderChat : String → String → Except String String
  /-- `supabase.table('memories').insert(row).execute()`
  (lines 161-163, 172-176). -/
  insert : MemoryRow → Except String Unit

/-- Python `\w` on ASCII input: letters, digits, underscore. -/
def isWordChar (c : Char) : Bool :=
  c.isAlpha || c.isDigit || c = '_'

/-- The maximal leading run of word characters: what the greedy group
`(\w+)` captures when nothing follows it in the pattern. -/
def takeWord : List Char → List Char
  | [] => []
  | c :: cs => if isWordChar c then c :: takeWord cs else []

/-- `re.search` for a pattern of the form `<literal phrase>(\w+)`: the
leftmost position where the literal phrase occurs immediately followed by
at least one word character; returns the captured group. -/
def captureAfter (pat : List Char) : List Char → Option (List Char)
  | [] => none
  | c :: cs =>
    if pat.isPrefixOf (c :: cs) then
      let w := takeWord ((c :: cs).drop pat.length)
      if w.isEmpty then captureAfter pat cs else some w
    else captureAfter pat cs

/-- Python `str.lower()` (ASCII behaviour). -/
def pyLower (s : String) : String :=
  String.mk (s.data.map Char.toLower)

/-- The whitespace characters Python `str.strip()` removes (ASCII part). -/
def isPySpace (c : Char) : Bool :=
  c = ' ' || c = '\t' || c = '\n' || c = '\r' || c = '\x0b' || c = '\x0c'

/-- Python `str.strip()` with no argument: surrounding whitespace removed. -/
def pyStrip (s : String) : String :=
  String.mk (((s.data.dropWhile isPySpace).reverse.dropWhile isPySpace).reverse)

/-- Python `str.title()` (ASCII behaviour): the first letter of each
maximal letter run is uppercased, the following letters lowercased;
non-letters pass through and break runs. -/
def titleChars : List Char → Bool → List Char
  | [], _ => []
  | c :: cs, prevCased =>
    if c.isAlpha then
      (if prevCased then c.toLower else c.toUpper) :: titleChars cs true
    else
      c :: titleChars cs false

/-- Python `str.title()` on a whole string. -/
def pyTitle (s : String) : String :=
  String.mk (titleChars s.data false)

/-- The literal phrases of the four patterns of lines 53-58, each
followed in the regex by `(\w+)`. -/
def name_patterns : List String :=
  ["my name is ", "i'm ", "i am ", "call me "]

/-- Lines 51-64: lowercase the message, try the four patterns in order,
return the first capture title-cased, else `none`. -/
def extract_name_from_message (message : String) : Option String :=
  (name_patterns.findSome? fun pat =>
      captureAfter pat.data (pyLower message).data).map
    fun w => pyTitle (String.mk w)

/-- Line 76: `" ".join(snippets) if snippets else "No results found."`. -/
def joinSnippets (snippets : List String) : String :=
  if snippets.isEmpty then "No results found."
  else String.intercalate " " snippets

/-- Lines 66-79: `perform_web_search`.  `web` is the provider call for
this turn; any provider failure is caught and rendered (lines 77-79). -/
def perform_web_search (web : Option String → Except String SearchResults)
    (query : Option String) : String :=
  match web query with
  | .error e => "Error in web search: " ++ e
  | .ok results =>
    let snippets :=
      (results.organic_results.take 4).filterMap fun res => res.snippet
    match results.answer_box with
    | some ab =>
      match ab.snippet with
      | some s => s
      | none => joinSnippets snippets
    | none => joinSnippets snippets

/-- Lines 103-110: the planner prompt. -/
def planning_prompt (user_message : String) : String :=
  "You are a smart router. Based on the user's message, decide if you need to search the web. " ++
  "If the question is about current events, news, recent information, specific facts about companies/people, " ++
  "weather, or requires up-to-date information, you should search. " ++
  "If the user is asking about themselves, chatting casually, or the question can be answered from memory, you don't need to search. " ++
  "Respond with a JSON object: \x7b\"tool\": \"web_search\", \"query\": \"search query\"\x7d or \x7b\"tool\": \"none\"\x7d.\n\n" ++
  "User message: '" ++ user_message ++ "'"

/-- Lines 132-139: the responder system instruction. -/
def final_system_instruction : String :=
  "You are a helpful AI assistant with memory and web search capabilities. IMPORTANT RULES:\n" ++
  "1. If MEMORY contains the user's name or personal info, ALWAYS use it\n" ++
  "2. When someone asks 'what's my name?' or 'who am I?', look for their name in MEMORY\n" ++
  "3. If you have both MEMORY and WEB SEARCH RESULTS, use both appropriately\n" ++
  "4. For personal questions, prioritize MEMORY. For factual questions, use WEB SEARCH RESULTS\n" ++
  "5. Be conversational and remember details about the user"

/-- Lines 95-100: the memory context block (empty when `memories.data`
is empty, else a header plus one bullet per record). -/
def memory_context_of (data : List MemoryRecord) : String :=
  if data.isEmpty then ""
  else "MEMORY from past conversations:\n" ++
    String.join (data.map fun memory => "- " ++ memory.content ++ "\n")

/-- Lines 121-129: the web context block (a search is performed exactly
when the decision's tool is the string `"web_search"`). -/
def web_context_of (web : Option String → Except String SearchResults)
    (decision : Decision) : String :=
  if decision.tool = some "web_search" then
    "WEB SEARCH RESULTS:\n" ++ perform_web_search web decision.query ++ "\n\n"
  else ""

/-- Line 143: `all_context if all_context else 'No previous context
available.'` after stripping. -/
def context_block (all_context : String) : String :=
  if all_context = "" then "No previous context available." else all_context

/-- Lines 142-146: the responder user prompt. -/
def final_user_prompt (all_context user_message : String) : String :=
  context_block all_context ++
  "\n\nUser message: '" ++ user_message ++
  "'\nResponse based on the context above:"

/-- Line 183: the fixed apology returned by the catch-all handler. -/
def apology : String := "Sorry, something went wrong. Please try again."

/-- Lines 82-183: `get_bot_response`.  Returns the reply text and the
rows inserted into `memories` during the turn (in order).  Every `.error`
of an external call propagates to the single `except` of line 181, which
returns the apology; rows already inserted stay inserted. -/
def get_bot_response (env : Env) (user_id : Int) (user_message : String) :
    String × List MemoryRow :=
  match env.encode user_message with
  | .error _ => (apology, [])
  | .ok message_embedding =>
    match env.match_memories message_embedding user_id with
    | .error _ => (apology, [])
    | .ok data =>
      let memory_context := memory_context_of data
      match env.plannerChat (planning_prompt user_message) with
      | .error _ => (apology, [])
      | .ok planner_content =>
        match env.parseJson planner_content with
        | .error _ => (apology, [])
        | .ok decision =>
          let web_context := web_context_of env.webSearch decision
          let all_context := pyStrip (memory_context ++ web_context)
          match env.responderChat final_system_instruction
              (final_user_prompt all_context user_message) with
          | .error _ => (apology, [])
          | .ok bot_response =>
            let memory_to_save := "User said: '" ++ user_message ++ "'"
            match env.encode memory_to_save with
            | .error _ => (apology, [])
            | .ok embedding =>
              let row : MemoryRow := ⟨user_id, memory_to_save, embedding⟩
              match env.insert row with
              | .error _ => (apology, [])
              | .ok _ =>
                match extract_name_from_message user_message with
                | none => (bot_response, [row])
                | some extracted_name =>
                  let name_memory := "The user's name is " ++ extracted_name
                  match env.encode name_memory with
                  | .error _ => (apology, [row])
                  | .ok name_embedding =>
                    let nrow : MemoryRow := ⟨user_id, name_memory, name_embedding⟩
                    match env.insert nrow with
                    | .error _ => (apology, [row])
                    | .ok _ => (bot_response, [row, nrow])

/-- A fully healthy environment: every external call succeeds, the
planner decides `{"tool": "none"}`.  Used to instantiate theorems at
concrete inputs. -/
def okEnv : Env where
  encode := fun _ => .ok []
  match_memories := fun _ _ => .ok []
  plannerChat := fun _ => .ok "planner output"
  parseJson := fun _ => .ok ⟨some "none", none⟩
  webSearch := fun _ => .ok ⟨none, []⟩
  responderChat := fun _ _ => .ok "generated answer"
  insert := fun _ => .ok ()

/-- A healthy environment whose planner content does not parse as JSON. -/
def parseFailEnv : Env :=
  { okEnv with parseJson := fun _ => .error "malformed json" }

/-- A healthy environment whose memory-store similarity query raises. -/
def memFailEnv : Env :=
  { okEnv with match_memories := fun _ _ => .error "store unreachable" }

/-- `Char.ofNat` on a valid code point round-trips through `toNat`. -/
theorem char_toNat_ofNat_valid (n : Nat) (h : n.isValidChar) :
    (Char.ofNat n).toNat = n := by
  rw [Char.ofNat, dif_pos h]
  rfl

/-- `Char.toLower` is idempotent. -/
theorem char_toLower_idem (c : Char) : c.toLower.toLower = c.toLower := by
  unfold Char.toLower
  by_cases h : c.toNat ≥ 65 ∧ c.toNat ≤ 90
  · rw [if_pos h]
    have ht : (Char.ofNat (c.toNat + 32)).toNat = c.toNat + 32 :=
      char_toNat_ofNat_valid _ (Or.inl (by omega))
    rw [if_neg]
    omega
  · rw [if_neg h, if_neg h]

/-- `pyLower` is idempotent. -/
theorem pyLower_idem (s : String) : pyLower (pyLower s) = pyLower s := by
  have hf : ∀ l : List Char,
      (l.map Char.toLower).map Char.toLower = l.map Char.toLower := by
    intro l
    induction l with
    | nil => rfl
    | cons c cs ih => simp [List.map_cons, ih, char_toLower_idem]
  show String.mk ((s.data.map Char.toLower).map Char.toLower) = _
  rw [hf]
  rfl

/-- C1: for every environment, user id and message, `get_bot_response`
returns text and never propagates a failure: every result is either the
fixed apology (when some step raised) or the responder model's generated
answer. -/
theorem get_bot_response_apology_or_answer (env : Env) (user_id : Int)
    (user_message : String) :
    (get_bot_response env user_id user_message).1 = apology ∨
    ∃ prompt bot_response,
      env.responderChat final_system_instruction prompt = .ok bot_response ∧
      (get_bot_response env user_id user_message).1 = bot_response := by
  simp only [get_bot_response]
  repeat' split
  all_goals try exact Or.inl rfl
  all_goals
    apply Or.inr
    apply Exists.intro
    apply Exists.intro
    constructor
    · assumption
    · rfl

/-- C3: when the planner chat succeeds but its content is not parseable
as JSON, no repair or retry happens: the whole turn fails with the fixed
apology and no memory row is inserted. -/
theorem planner_parse_failure_fails_turn (env : Env) (user_id : Int)
    (user_message : String)
    (emb : List Int) (h1 : env.encode user_message = .ok emb)
    (data : List MemoryRecord) (h2 : env.match_memories emb user_id = .ok data)
    (pc : String) (h3 : env.plannerChat (planning_prompt user_message) = .ok pc)
    (e : String) (h4 : env.parseJson pc = .error e) :
    get_bot_response env user_id user_message = (apology, []) := by
  unfold get_bot_response
  simp only [h1, h2, h3, h4]

/-- Witness for C3: a concrete healthy environment whose planner content
is malformed JSON yields the apology and no inserted rows. -/
theorem planner_parse_failure_fails_turn_witness :
    get_bot_response parseFailEnv 1 "hi" = (apology, []) :=
  planner_parse_failure_fails_turn parseFailEnv 1 "hi"
    [] rfl [] rfl "planner output" rfl "malformed json" rfl

/-- C7: name extraction lowercases the message before matching the four
fixed patterns, so it is case-insensitive on the trigger phrase, and the
extracted name is title-cased: `"I'M bob"` yields `"Bob"`. -/
theorem extract_name_case_insensitive :
    (∀ message : String,
        extract_name_from_message message =
          extract_name_from_message (pyLower message)) ∧
    extract_name_from_message "I'M bob" = some "Bob" := by
  constructor
  · intro message
    unfold extract_name_from_message
    rw [pyLower_idem]
  · rfl

/-- The spec-side summary of a successful provider response, written
from the claim's words: the answer-box snippet when one is present, else
the space-joined snippets found among the first 4 organic results, else
the literal string "No results found.". -/
def web_summary_spec (r : SearchResults) : String :=
  match r.answer_box.bind AnswerBox.snippet with
  | some s => s
  | none =>
    let snips := (r.organic_results.take 4).filterMap OrganicResult.snippet
    if snips = [] then "No results found." else String.intercalate " " snips

/-- C8: on every successful provider response, `perform_web_search`
returns exactly the spec-side summary. -/
theorem perform_web_search_matches_summary
    (web : Option String → Except String SearchResults)
    (query : Option String) (r : SearchResults) (h : web query = .ok r) :
    perform_web_search web query = web_summary_spec r := by
  unfold perform_web_search web_summary_spec
  rw [h]
  rcases r with ⟨ab, org⟩
  rcases ab with _ | ⟨snip⟩
  · simp only [Option.bind]
    unfold joinSnippets
    cases hsn : (org.take 4).filterMap OrganicResult.snippet with
    | nil => simp
    | cons a l => simp
  · rcases snip with _ | s
    · simp only [Option.bind]
      unfold joinSnippets
      cases hsn : (org.take 4).filterMap OrganicResult.snippet with
      | nil => simp
      | cons a l => simp
    · rfl

/-- A sample provider response: no answer box, five organic results of
which the first four contain three snippets. -/
def sampleResults : SearchResults :=
  ⟨none, [⟨some "a"⟩, ⟨none⟩, ⟨some "b"⟩, ⟨some "c"⟩, ⟨some "d"⟩]⟩

/-- A provider that answers every query with `sampleResults`. -/
def sampleWeb : Option String → Except String SearchResults :=
  fun _ => .ok sampleResults

/-- Witness for C8: at the sample response the summary is the space-join
of the snippets among the first four organic results. -/
theorem perform_web_search_matches_summary_witness :
    perform_web_search sampleWeb (some "q") = web_summary_spec sampleResults ∧
    web_summary_spec sampleResults = "a b c" :=
  ⟨perform_web_search_matches_summary sampleWeb (some "q") sampleResults rfl, rfl⟩

/-- C2: every turn that reaches the memory-persistence step and whose
inserts go through persists exactly one row `User said: '<message>'`,
plus exactly one additional row `The user's name is <Name>` if and only
if a name-introduction pattern is detected — independent of the web
search (the planner decision `d` is arbitrary). -/
theorem turn_persists_message_and_name (env : Env) (user_id : Int)
    (user_message : String)
    (emb : List Int) (h1 : env.encode user_message = .ok emb)
    (data : List MemoryRecord) (h2 : env.match_memories emb user_id = .ok data)
    (pc : String) (h3 : env.plannerChat (planning_prompt user_message) = .ok pc)
    (d : Decision) (h4 : env.parseJson pc = .ok d)
    (bot : String)
    (h5 : env.responderChat final_system_instruction
        (final_user_prompt
          (pyStrip (memory_context_of data ++ web_context_of env.webSearch d))
          user_message) = .ok bot)
    (uemb : List Int)
    (h6 : env.encode ("User said: '" ++ user_message ++ "'") = .ok uemb)
    (h7 : env.insert ⟨user_id, "User said: '" ++ user_message ++ "'", uemb⟩ = .ok ())
    (hname : ∀ nm, extract_name_from_message user_message = some nm →
        ∃ nemb, env.encode ("The user's name is " ++ nm) = .ok nemb ∧
          env.insert ⟨user_id, "The user's name is " ++ nm, nemb⟩ = .ok ()) :
    (get_bot_response env user_id user_message).2.map MemoryRow.content =
      ("User said: '" ++ user_message ++ "'") ::
        (match extract_name_from_message user_message with
         | none => []
         | some nm => ["The user's name is " ++ nm]) := by
  simp only [get_bot_response, h1, h2, h3, h4, h5, h6, h7]
  cases hx : extract_name_from_message user_message with
  | none => simp
  | some nm =>
    obtain ⟨nemb, he, hi⟩ := hname nm hx
    simp [he, hi]

/-- Witness for C2: in the healthy environment the message
`"my name is alice"` persists exactly the raw-message row and the
derived name row. -/
theorem turn_persists_message_and_name_witness :
    (get_bot_response okEnv 1 "my name is alice").2.map MemoryRow.content =
      ["User said: 'my name is alice'", "The user's name is Alice"] := by
  have h := turn_persists_message_and_name okEnv 1 "my name is alice"
    [] rfl [] rfl "planner output" rfl ⟨some "none", none⟩ rfl
    "generated answer" rfl [] rfl rfl (fun _ _ => ⟨[], rfl, rfl⟩)
  exact h.trans (by rfl)

/-- C10: a multi-word name introduction keeps only the first word-character
token after the trigger phrase: `"my name is mary jane"` extracts `"Mary"`
and the turn persists the record `The user's name is Mary`, dropping the
rest of the name. -/
theorem multiword_name_truncated (env : Env) (user_id : Int)
    (emb : List Int) (h1 : env.encode "my name is mary jane" = .ok emb)
    (data : List MemoryRecord) (h2 : env.match_memories emb user_id = .ok data)
    (pc : String)
    (h3 : env.plannerChat (planning_prompt "my name is mary jane") = .ok pc)
    (d : Decision) (h4 : env.parseJson pc = .ok d)
    (bot : String)
    (h5 : env.responderChat final_system_instruction
        (final_user_prompt
          (pyStrip (memory_context_of data ++ web_context_of env.webSearch d))
          "my name is mary jane") = .ok bot)
    (uemb : List Int)
    (h6 : env.encode "User said: 'my name is mary jane'" = .ok uemb)
    (h7 : env.insert ⟨user_id, "User said: 'my name is mary jane'", uemb⟩ = .ok ())
    (nemb : List Int)
    (h8 : env.encode "The user's name is Mary" = .ok nemb)
    (h9 : env.insert ⟨user_id, "The user's name is Mary", nemb⟩ = .ok ()) :
    extract_name_from_message "my name is mary jane" = some "Mary" ∧
    (get_bot_response env user_id "my name is mary jane").2.map MemoryRow.content =
      ["User said: 'my name is mary jane'", "The user's name is Mary"] := by
  have hx : extract_name_from_message "my name is mary jane" = some "Mary" := rfl
  refine ⟨hx, ?_⟩
  simp only [get_bot_response, h1, h2, h3, h4, h5, hx]
  simp [h6, h7, h8, h9]

/-- Witness for C10: the same fact in the healthy environment. -/
theorem multiword_name_truncated_witness :
    extract_name_from_message "my name is mary jane" = some "Mary" ∧
    (get_bot_response okEnv 1 "my name is mary jane").2.map MemoryRow.content =
      ["User said: 'my name is mary jane'", "The user's name is Mary"] :=
  multiword_name_truncated okEnv 1 [] rfl [] rfl "planner output" rfl
    ⟨some "none", none⟩ rfl "generated answer" rfl [] rfl rfl [] rfl rfl

/-- C4: when the provider call raises, `perform_web_search` returns the
descriptive error string instead of re-raising, that string flows into
the responder prompt as search content, and the turn still ends in the
responder's generated answer rather than the apology path. -/
theorem web_search_failure_degrades (env : Env) (user_id : Int)
    (user_message : String)
    (emb : List Int) (h1 : env.encode user_message = .ok emb)
    (data : List MemoryRecord) (h2 : env.match_memories emb user_id = .ok data)
    (pc : String) (h3 : env.plannerChat (planning_prompt user_message) = .ok pc)
    (d : Decision) (h4 : env.parseJson pc = .ok d)
    (htool : d.tool = some "web_search")
    (e : String) (hw : env.webSearch d.query = .error e)
    (bot : String)
    (h5 : env.responderChat final_system_instruction
        (final_user_prompt
          (pyStrip (memory_context_of data ++
            ("WEB SEARCH RESULTS:\n" ++ ("Error in web search: " ++ e) ++ "\n\n")))
          user_message) = .ok bot)
    (uemb : List Int)
    (h6 : env.encode ("User said: '" ++ user_message ++ "'") = .ok uemb)
    (h7 : env.insert ⟨user_id, "User said: '" ++ user_message ++ "'", uemb⟩ = .ok ())
    (hname : ∀ nm, extract_name_from_message user_message = some nm →
        ∃ nemb, env.encode ("The user's name is " ++ nm) = .ok nemb ∧
          env.insert ⟨user_id, "The user's name is " ++ nm, nemb⟩ = .ok ()) :
    perform_web_search env.webSearch d.query = "Error in web search: " ++ e ∧
    (get_bot_response env user_id user_message).1 = bot := by
  have hp : perform_web_search env.webSearch d.query = "Error in web search: " ++ e := by
    unfold perform_web_search
    rw [hw]
  have hctx : web_context_of env.webSearch d =
      "WEB SEARCH RESULTS:\n" ++ ("Error in web search: " ++ e) ++ "\n\n" := by
    unfold web_context_of
    rw [htool, if_pos rfl, hp]
  refine ⟨hp, ?_⟩
  simp only [get_bot_response, h1, h2, h3, h4, hctx, h5, h6, h7]
  cases hx : extract_name_from_message user_message with
  | none => rfl
  | some nm =>
    obtain ⟨nemb, he, hi⟩ := hname nm hx
    simp [he, hi]

/-- A healthy environment whose planner decides to search and whose
search provider raises. -/
def webFailEnv : Env :=
  { okEnv with
      parseJson := fun _ => .ok ⟨some "web_search", some "q"⟩
      webSearch := fun _ => .error "provider down" }

/-- Witness for C4: with the provider raising, the error string is the
search content and the reply is still the generated answer. -/
theorem web_search_failure_degrades_witness :
    perform_web_search webFailEnv.webSearch (some "q") =
      "Error in web search: " ++ "provider down" ∧
    (get_bot_response webFailEnv 1 "hi").1 = "generated answer" :=
  web_search_failure_degrades webFailEnv 1 "hi" [] rfl [] rfl
    "planner output" rfl ⟨some "web_search", some "q"⟩ rfl rfl
    "provider down" rfl "generated answer" rfl [] rfl rfl
    (fun _ _ => ⟨[], rfl, rfl⟩)

/-- C6: when the planner decision is `{"tool": "none"}`, the web-search
provider is never consulted (the turn's outcome is the same for every
provider) and the web context added to the responder prompt is empty. -/
theorem planner_none_skips_web (env : Env) (user_id : Int)
    (user_message : String)
    (emb : List Int) (h1 : env.encode user_message = .ok emb)
    (data : List MemoryRecord) (h2 : env.match_memories emb user_id = .ok data)
    (pc : String) (h3 : env.plannerChat (planning_prompt user_message) = .ok pc)
    (d : Decision) (h4 : env.parseJson pc = .ok d)
    (htool : d.tool = some "none") :
    (∀ w, get_bot_response { env with webSearch := w } user_id user_message =
        get_bot_response env user_id user_message) ∧
    web_context_of env.webSearch d = "" := by
  have hw : ∀ w, web_context_of w d = "" := by
    intro w
    unfold web_context_of
    rw [htool, if_neg (by decide)]
  refine ⟨?_, hw env.webSearch⟩
  intro w
  simp only [get_bot_response, h1, h2, h3, h4, hw]

/-- Witness for C6: concrete instance with a provider that would raise if
it were ever consulted. -/
theorem planner_none_skips_web_witness :
    get_bot_response { okEnv with webSearch := fun _ => .error "never called" }
        1 "hi" = get_bot_response okEnv 1 "hi" ∧
    web_context_of okEnv.webSearch ⟨some "none", none⟩ = "" := by
  have h := planner_none_skips_web okEnv 1 "hi" [] rfl [] rfl
    "planner output" rfl ⟨some "none", none⟩ rfl rfl
  exact ⟨h.1 _, h.2⟩

/-- C9: when the similarity search returns zero records and the planner
does not choose the web search, the context block passed to the responder
is exactly the literal fallback string (no memory header, no dangling
separators), and the turn ends in the responder's answer for that exact
prompt. -/
theorem empty_context_fallback (env : Env) (user_id : Int)
    (user_message : String)
    (emb : List Int) (h1 : env.encode user_message = .ok emb)
    (h2 : env.match_memories emb user_id = .ok [])
    (pc : String) (h3 : env.plannerChat (planning_prompt user_message) = .ok pc)
    (d : Decision) (h4 : env.parseJson pc = .ok d)
    (htool : d.tool ≠ some "web_search")
    (bot : String)
    (h5 : env.responderChat final_system_instruction
        (final_user_prompt
          (pyStrip (memory_context_of [] ++ web_context_of env.webSearch d))
          user_message) = .ok bot)
    (uemb : List Int)
    (h6 : env.encode ("User said: '" ++ user_message ++ "'") = .ok uemb)
    (h7 : env.insert ⟨user_id, "User said: '" ++ user_message ++ "'", uemb⟩ = .ok ())
    (hname : ∀ nm, extract_name_from_message user_message = some nm →
        ∃ nemb, env.encode ("The user's name is " ++ nm) = .ok nemb ∧
          env.insert ⟨user_id, "The user's name is " ++ nm, nemb⟩ = .ok ()) :
    context_block (pyStrip (memory_context_of [] ++ web_context_of env.webSearch d)) =
      "No previous context available." ∧
    (get_bot_response env user_id user_message).1 = bot := by
  have hwc : web_context_of env.webSearch d = "" := by
    unfold web_context_of
    rw [if_neg htool]
  have hctx : pyStrip (memory_context_of [] ++ web_context_of env.webSearch d) = "" := by
    rw [hwc]
    rfl
  refine ⟨by rw [hctx]; rfl, ?_⟩
  simp only [get_bot_response, h1, h2, h3, h4, h5, h6, h7]
  cases hx : extract_name_from_message user_message with
  | none => rfl
  | some nm =>
    obtain ⟨nemb, he, hi⟩ := hname nm hx
    simp [he, hi]

/-- Witness for C9: in the healthy environment with no memories and the
planner deciding `none`, the context block is the literal fallback. -/
theorem empty_context_fallback_witness :
    context_block
        (pyStrip (memory_context_of [] ++
          web_context_of okEnv.webSearch ⟨some "none", none⟩)) =
      "No previous context available." ∧
    (get_bot_response okEnv 1 "hi").1 = "generated answer" :=
  empty_context_fallback okEnv 1 "hi" [] rfl rfl "planner output" rfl
    ⟨some "none", none⟩ rfl (by decide) "generated answer" rfl [] rfl rfl
    (fun _ _ => ⟨[], rfl, rfl⟩)

/-- One of the pipeline's external calls other than the web-search
provider raises, the calls made before it having succeeded: the eight
non-web-search call sites of `get_bot_response` in pipeline order
(embedder on the message, memory-store query, planner chat, responder
chat, embedder on the raw-message row, insert of that row, embedder on
the name row, insert of that row). -/
def NonSearchCallFails (env : Env) (user_id : Int) (user_message : String) : Prop :=
  (∃ e, env.encode user_message = .error e) ∨
  (∃ emb e, env.encode user_message = .ok emb ∧
    env.match_memories emb user_id = .error e) ∨
  (∃ emb data e, env.encode user_message = .ok emb ∧
    env.match_memories emb user_id = .ok data ∧
    env.plannerChat (planning_prompt user_message) = .error e) ∨
  (∃ emb data pc d e, env.encode user_message = .ok emb ∧
    env.match_memories emb user_id = .ok data ∧
    env.plannerChat (planning_prompt user_message) = .ok pc ∧
    env.parseJson pc = .ok d ∧
    env.responderChat final_system_instruction
      (final_user_prompt
        (pyStrip (memory_context_of data ++ web_context_of env.webSearch d))
        user_message) = .error e) ∨
  (∃ emb data pc d bot e, env.encode user_message = .ok emb ∧
    env.match_memories emb user_id = .ok data ∧
    env.plannerChat (planning_prompt user_message) = .ok pc ∧
    env.parseJson pc = .ok d ∧
    env.responderChat final_system_instruction
      (final_user_prompt
        (pyStrip (memory_context_of data ++ web_context_of env.webSearch d))
        user_message) = .ok bot ∧
    env.encode ("User said: '" ++ user_message ++ "'") = .error e) ∨
  (∃ emb data pc d bot uemb e, env.encode user_message = .ok emb ∧
    env.match_memories emb user_id = .ok data ∧
    env.plannerChat (planning_prompt user_message) = .ok pc ∧
    env.parseJson pc = .ok d ∧
    env.responderChat final_system_instruction
      (final_user_prompt
        (pyStrip (memory_context_of data ++ web_context_of env.webSearch d))
        user_message) = .ok bot ∧
    env.encode ("User said: '" ++ user_message ++ "'") = .ok uemb ∧
    env.insert ⟨user_id, "User said: '" ++ user_message ++ "'", uemb⟩ = .error e) ∨
  (∃ emb data pc d bot uemb nm e, env.encode user_message = .ok emb ∧
    env.match_memories emb user_id = .ok data ∧
    env.plannerChat (planning_prompt user_message) = .ok pc ∧
    env.parseJson pc = .ok d ∧
    env.responderChat final_system_instruction
      (final_user_prompt
        (pyStrip (memory_context_of data ++ web_context_of env.webSearch d))
        user_message) = .ok bot ∧
    env.encode ("User said: '" ++ user_message ++ "'") = .ok uemb ∧
    env.insert ⟨user_id, "User said: '" ++ user_message ++ "'", uemb⟩ = .ok () ∧
    extract_name_from_message user_message = some nm ∧
    env.encode ("The user's name is " ++ nm) = .error e) ∨
  (∃ emb data pc d bot uemb nm nemb e, env.encode user_message = .ok emb ∧
    env.match_memories emb user_id = .ok data ∧
    env.plannerChat (planning_prompt user_message) = .ok pc ∧
    env.parseJson pc = .ok d ∧
    env.responderChat final_system_instruction
      (final_user_prompt
        (pyStrip (memory_context_of data ++ web_context_of env.webSearch d))
        user_message) = .ok bot ∧
    env.encode ("User said: '" ++ user_message ++ "'") = .ok uemb ∧
    env.insert ⟨user_id, "User said: '" ++ user_message ++ "'", uemb⟩ = .ok () ∧
    extract_name_from_message user_message = some nm ∧
    env.encode ("The user's name is " ++ nm) = .ok nemb ∧
    env.insert ⟨user_id, "The user's name is " ++ nm, nemb⟩ = .error e)

/-- C5 counterexample: a memory-store query failure is not treated as
"no results".  In a concrete environment whose only fault is a raising
similarity query — the responder would happily answer with
"generated answer" — the turn aborts with the apology and persists
nothing, so the pipeline did not continue to a generated answer. -/
theorem store_failure_returns_apology :
    get_bot_response memFailEnv 1 "hi" = (apology, []) ∧
    memFailEnv.responderChat final_system_instruction
      (final_user_prompt "No previous context available." "hi") =
      .ok "generated answer" ∧
    apology ≠ "generated answer" :=
  ⟨rfl, rfl, by decide⟩

/-- C5 as amended: a failure at any external call of the pipeline other
than the web-search provider (embedder, memory-store query,
language-model calls, memory-store insert) is not degraded to "no
results" — it propagates to the single top-level handler and the turn
returns the fixed apology. -/
theorem nonsearch_failure_aborts_turn (env : Env) (user_id : Int)
    (user_message : String) (h : NonSearchCallFails env user_id user_message) :
    (get_bot_response env user_id user_message).1 = apology := by
  rcases h with
      ⟨e, h1⟩ |
      ⟨emb, e, h1, h2⟩ |
      ⟨emb, data, e, h1, h2, h3⟩ |
      ⟨emb, data, pc, d, e, h1, h2, h3, h4, h5⟩ |
      ⟨emb, data, pc, d, bot, e, h1, h2, h3, h4, h5, h6⟩ |
      ⟨emb, data, pc, d, bot, uemb, e, h1, h2, h3, h4, h5, h6, h7⟩ |
      ⟨emb, data, pc, d, bot, uemb, nm, e, h1, h2, h3, h4, h5, h6, h7, h8, h9⟩ |
      ⟨emb, data, pc, d, bot, uemb, nm, nemb, e, h1, h2, h3, h4, h5, h6, h7, h8, h9, h10⟩
  · simp [get_bot_response, h1]
  · simp [get_bot_response, h1, h2]
  · simp [get_bot_response, h1, h2, h3]
  · simp [get_bot_response, h1, h2, h3, h4, h5]
  · simp [get_bot_response, h1, h2, h3, h4, h5, h6]
  · simp [get_bot_response, h1, h2, h3, h4, h5, h6, h7]
  · simp [get_bot_response, h1, h2, h3, h4, h5, h6, h7, h8, h9]
  · simp [get_bot_response, h1, h2, h3, h4, h5, h6, h7, h8, h9, h10]

/-- Witness for the amended C5: the raising-store environment instantiates
the second failure case. -/
theorem nonsearch_failure_aborts_turn_witness :
    (get_bot_response memFailEnv 1 "hi").1 = apology :=
  nonsearch_failure_aborts_turn memFailEnv 1 "hi"
    (Or.inr (Or.inl ⟨[], "store unreachable", rfl, rfl⟩))

end CoresAI
